import Mathlib

/-!
Shallow embedding of the `/predict` request handler of the skin-lesion
classification backend (`index.py`), together with proofs of the claimed
properties of that handler.

The three ML models (segmentation, classification, tabular metadata
predictor) and the image decoder are opaque external collaborators; they
are modelled as fields of an `Env` record of pure functions.  Image
tensors use exact rationals in place of IEEE floats; pixel positions are
pairs of `Fin 224` coordinates (the fixed 224 by 224 resolution after
resizing) and pixel values of the decoded image are naturals (uint8).
-/

/-- A pixel position in the fixed 224 by 224 grid produced by `cv2.resize`. -/
def Pos : Type := Fin 224 × Fin 224

/-- The decoded, resized image (`orig_img`): BGR channel values per pixel. -/
def OrigImage : Type := Pos → Fin 3 → Nat

/-- The four metadata form fields (`request.form.get(..., "")`). -/
structure Metadata where
  dx_type : String
  age : String
  sex : String
  localization : String
deriving DecidableEq

/-- The dynamically-typed value returned by `nlp_model.predict(input_df)[0]`.
`parseNum` is the observable behaviour of Python's `float(nlp_pred)`:
`some n` when the coercion succeeds, `none` when it raises
`ValueError`/`TypeError`.  `toStr` is `str(nlp_pred)`. -/
structure NlpPred where
  parseNum : Option ℚ
  toStr : String
deriving DecidableEq

/-- An incoming `POST /predict` request: the optional `image` file field
(filename and raw bytes) and the metadata form fields. -/
structure Request where
  image : Option (String × List Nat)
  meta : Metadata
deriving DecidableEq

/-- The JSON payload of a 200 response (step 12 of the handler). -/
structure Payload where
  plot_image : String
  cnn_output : String
  all_class_probabilities : String
  nlp_output : String
  segmentation_output : String
  final_output : String
deriving DecidableEq

/-- A response from the handler: either a 200 JSON payload, or a JSON body
of the form `{"error": msg}` together with an HTTP status code. -/
inductive Resp where
  | success (payload : Payload)
  | error (status : Nat) (msg : String)
deriving DecidableEq

/-- The external collaborators of the handler: the image decoder
(`cv2.imread` composed with `cv2.resize`, `none` when `imread` returns
`None`), the three models, and the matplotlib figure encoder.  Each is an
arbitrary pure function, loaded once and shared by all requests. -/
structure Env where
  decode : List Nat → Option OrigImage
  segmentation : (Pos → Fin 3 → ℚ) → Pos → ℚ
  classification : (Pos → Fin 3 → ℚ) → List ℚ
  nlp : Metadata → NlpPred
  encodePlot : (Pos → Fin 3 → ℚ) → OrigImage → (Pos → ℚ) → String

/-- The fixed label set of the CNN classifier (`CLASS_LABELS`). -/
def CLASS_LABELS : List String := ["bkl", "nv", "df", "mel", "vasc", "bcc", "akiec"]

/-- Helper for `argmaxIdx`: scan the tail, keeping the index `best` of the
strictly largest value `bv` seen so far (`np.argmax` returns the first
index attaining the maximum). -/
def argmaxAux : List ℚ → Nat → Nat → ℚ → Nat
  | [], _, best, _ => best
  | x :: xs, i, best, bv =>
      if x > bv then argmaxAux xs (i + 1) i x else argmaxAux xs (i + 1) best bv

/-- `np.argmax` on a list of rationals: index of the first maximal entry. -/
def argmaxIdx : List ℚ → Nat
  | [] => 0
  | x :: xs => argmaxAux xs 1 0 x

/-- Rounding to the nearest integer, halves up: `⌊q + 1/2⌋` computed on the
numerator and denominator with integer floor division. -/
def roundQ (q : ℚ) : Int := Int.fdiv (2 * q.num + q.den) (2 * q.den)

/-- Fixed-point decimal rendering of a rational with `k` digits after the
point, modelling Python's format spec on exact values
(ties are rounded half-up here, which agrees with the source on all
non-tie values). -/
def formatFixed (k : Nat) (q : ℚ) : String :=
  let scaled : Int := roundQ (q * (10 ^ k : ℚ))
  let sign := if scaled < 0 then "-" else ""
  let n := scaled.natAbs
  let fpStr := toString (n % 10 ^ k)
  sign ++ toString (n / 10 ^ k) ++ "." ++
    String.mk (List.replicate (k - fpStr.length) '0') ++ fpStr

/-- `img_norm`: the decoded image scaled to the unit interval
(`orig_img.astype(np.float32) / 255.0`). -/
def imgNorm (orig : OrigImage) : Pos → Fin 3 → ℚ :=
  fun p c => (orig p c : ℚ) / 255

/-- `orig_img_rgb`: channel reorder BGR to RGB (`cv2.cvtColor`), used only
for the visualization panels. -/
def origRGB (orig : OrigImage) : OrigImage :=
  fun p c => orig p ⟨2 - c.val, by omega⟩

/-- `mask_bin`: the segmentation model output on the normalized tensor,
thresholded strictly at 0.5 (`(mask_pred > 0.5).astype(np.float32)`),
after squeezing the singleton channel dimension. -/
def maskBin (env : Env) (orig : OrigImage) : Pos → ℚ :=
  fun p => if env.segmentation (imgNorm orig) p > 1 / 2 then 1 else 0

/-- `masked_img`: the binary mask broadcast across the 3 channels and
multiplied elementwise into the normalized image
(`img_norm * mask_3ch`). -/
def maskedImg (env : Env) (orig : OrigImage) : Pos → Fin 3 → ℚ :=
  fun p c => imgNorm orig p c * maskBin env orig p

/-- `cnn_probs`: the classification model applied to the batched masked
image, first output row. -/
def cnnProbsOf (env : Env) (orig : OrigImage) : List ℚ :=
  env.classification (maskedImg env orig)

/-- `top_class_label` (line 86): `CLASS_LABELS[top_idx]` when `top_idx` is
in range, else the defensive `"Unknown"`. -/
def topClassLabel (probs : List ℚ) : String :=
  if argmaxIdx probs < CLASS_LABELS.length then
    CLASS_LABELS.getD (argmaxIdx probs) ""
  else "Unknown"

/-- One generator step of line 88-90: the f-string
`CLASS_LABELS[i]: cnn_probs[i]` with 4 decimal places; `cnn_probs[i]`
raises `IndexError` when `i` is out of range. -/
def entryAt (probs : List ℚ) (i : Nat) : Except String String :=
  match probs[i]? with
  | some q => .ok (CLASS_LABELS.getD i "" ++ ": " ++ formatFixed 4 q)
  | none => .error "index out of bounds"

/-- The generator of line 88-90 run over a list of indices, stopping at the
first failing index. -/
def entriesUpto (probs : List ℚ) : List Nat → Except String (List String)
  | [] => .ok []
  | i :: is =>
      match entryAt probs i, entriesUpto probs is with
      | .error e, _ => .error e
      | .ok _, .error e => .error e
      | .ok s, .ok ss => .ok (s :: ss)

/-- The list of the 7 `label: probability` strings of
`all_class_probs_str`, over `range(len(CLASS_LABELS))`. -/
def allEntries (probs : List ℚ) : Except String (List String) :=
  entriesUpto probs (List.range CLASS_LABELS.length)

/-- Lines 102-108: attempt `float(nlp_pred)`; on success average against
the probability vector and index `CLASS_LABELS` at the new argmax
(`CLASS_LABELS[final_idx]` raises `IndexError` out of range); on
coercion failure fall back to `str(nlp_pred)`. -/
def fusedLabelE (probs : List ℚ) (np : NlpPred) : Except String String :=
  match np.parseNum with
  | some n =>
      match CLASS_LABELS[argmaxIdx (probs.map fun p => (p + n) / 2)]? with
      | some l => .ok l
      | none => .error "list index out of range"
  | none => .ok np.toStr

/-- Steps 5-12 of the handler body, from the decoded image to the success
payload; `.error` is an exception propagating to the outer handler.
`np.argmax` raises on an empty vector (before anything else can fail),
hence the leading match; within the nonempty branch `top_idx` is always
in range, so `float(cnn_probs[top_idx])` is embedded with `getD`. -/
def runPipeline (env : Env) (md : Metadata) (orig : OrigImage) : Except String Payload :=
  let cnn_probs := cnnProbsOf env orig
  match cnn_probs with
  | [] => .error "attempt to get argmax of an empty sequence"
  | _ :: _ =>
      let top_idx := argmaxIdx cnn_probs
      let top_class_conf := cnn_probs.getD top_idx 0
      match allEntries cnn_probs with
      | .error e => .error e
      | .ok entries =>
          let nlp_pred := env.nlp md
          match fusedLabelE cnn_probs nlp_pred with
          | .error e => .error e
          | .ok final_label =>
              .ok {
                plot_image := "data:image/png;base64," ++
                  env.encodePlot (maskedImg env orig) (origRGB orig) (maskBin env orig)
                cnn_output := "Predicted Class: " ++ topClassLabel cnn_probs ++
                  " (Confidence: " ++ formatFixed 2 top_class_conf ++ ")"
                all_class_probabilities := String.intercalate ", " entries
                nlp_output := "NLP Prediction: " ++ nlp_pred.toStr
                segmentation_output := "U-Net Segmentation Applied"
                final_output := "This disease is most probably classified as: " ++ final_label }

/-- The `POST /predict` handler: missing `image` field gives a 400; a
failed decode raises `ValueError("Could not read image from path: ...")`
which, like every other exception, the single outer `except` converts to
a 500 whose body exposes `str(e)`. -/
def predict (env : Env) (req : Request) : Resp :=
  match req.image with
  | none => .error 400 "No image provided"
  | some (fname, bytes) =>
      match env.decode bytes with
      | none => .error 500 ("Could not read image from path: uploads/" ++ fname)
      | some orig =>
          match runPipeline env req.meta orig with
          | .ok payload => .success payload
          | .error e => .error 500 e

/-! ## Basic facts about `argmaxIdx` -/

/-- The index returned by `argmaxAux` is either the running best index or
one of the scanned positions, hence below any bound dominating both. -/
theorem argmaxAux_lt_of_lt (xs : List ℚ) :
    ∀ (i best : Nat) (bv : ℚ) (m : Nat),
      best < m → i + xs.length ≤ m → argmaxAux xs i best bv < m := by
  induction xs with
  | nil =>
      intro i best bv m hb _
      simpa [argmaxAux] using hb
  | cons x xs ih =>
      intro i best bv m hb hlen
      simp only [List.length_cons] at hlen
      by_cases h : x > bv
      · rw [argmaxAux, if_pos h]
        exact ih (i + 1) i x m (by omega) (by omega)
      · rw [argmaxAux, if_neg h]
        exact ih (i + 1) best bv m hb (by omega)

/-- `np.argmax` on a nonempty vector returns an in-range index. -/
theorem argmaxIdx_lt_length (l : List ℚ) (h : l ≠ []) : argmaxIdx l < l.length := by
  match l with
  | [] => exact absurd rfl h
  | x :: xs =>
      exact argmaxAux_lt_of_lt xs 1 0 x (xs.length + 1) (by omega) (by omega)

/-- A list of length 7 is literally a 7-element list. -/
theorem exists_seven_of_length (l : List ℚ) (h : l.length = 7) :
    ∃ a b c d e f g, l = [a, b, c, d, e, f, g] := by
  rcases l with _ | ⟨a, l⟩; · simp at h
  rcases l with _ | ⟨b, l⟩; · simp at h
  rcases l with _ | ⟨c, l⟩; · simp at h
  rcases l with _ | ⟨d, l⟩; · simp at h
  rcases l with _ | ⟨e, l⟩; · simp at h
  rcases l with _ | ⟨f, l⟩; · simp at h
  rcases l with _ | ⟨g, l⟩; · simp at h
  rcases l with _ | ⟨x, l⟩
  · exact ⟨a, b, c, d, e, f, g, rfl⟩
  · simp at h

/-! ## Derived closed forms for a successful run -/

/-- The fused label as a total function, valid whenever the probability
vector has the contractual length 7. -/
def fusedLabelD (probs : List ℚ) (np : NlpPred) : String :=
  match np.parseNum with
  | some n => CLASS_LABELS.getD (argmaxIdx (probs.map fun p => (p + n) / 2)) ""
  | none => np.toStr

/-- Closed form of `all_class_probs_str` for an in-contract vector. -/
def allClassProbsStr (probs : List ℚ) : String :=
  String.intercalate ", "
    ((List.range 7).map fun i =>
      CLASS_LABELS.getD i "" ++ ": " ++ formatFixed 4 (probs.getD i 0))

/-- The success payload of the handler as a total function of the
environment, the metadata and the decoded image. -/
def payloadOf (env : Env) (md : Metadata) (orig : OrigImage) : Payload :=
  let probs := cnnProbsOf env orig
  { plot_image := "data:image/png;base64," ++
      env.encodePlot (maskedImg env orig) (origRGB orig) (maskBin env orig)
    cnn_output := "Predicted Class: " ++ topClassLabel probs ++
      " (Confidence: " ++ formatFixed 2 (probs.getD (argmaxIdx probs) 0) ++ ")"
    all_class_probabilities := allClassProbsStr probs
    nlp_output := "NLP Prediction: " ++ (env.nlp md).toStr
    segmentation_output := "U-Net Segmentation Applied"
    final_output := "This disease is most probably classified as: " ++
      fusedLabelD probs (env.nlp md) }

/-- Indexing the 7-element label list below 7 always succeeds. -/
theorem CLASS_LABELS_getElem_lt (i : Nat) (h : i < 7) :
    CLASS_LABELS[i]? = some (CLASS_LABELS.getD i "") := by
  revert i
  decide

/-- None of the seven labels is the defensive fallback string. -/
theorem CLASS_LABELS_getD_ne_Unknown (i : Nat) (h : i < 7) :
    CLASS_LABELS.getD i "" ≠ "Unknown" := by
  revert i
  decide

/-- On an in-contract vector the entry generator succeeds and produces the
closed-form list. -/
theorem allEntries_of_length7 (probs : List ℚ) (h : probs.length = 7) :
    allEntries probs =
      .ok ((List.range 7).map fun i =>
        CLASS_LABELS.getD i "" ++ ": " ++ formatFixed 4 (probs.getD i 0)) := by
  obtain ⟨a, b, c, d, e, f, g, rfl⟩ := exists_seven_of_length probs h
  rfl

/-- On an in-contract vector fusion always succeeds, with the closed-form
label. -/
theorem fusedLabelE_of_length7 (probs : List ℚ) (np : NlpPred)
    (h : probs.length = 7) :
    fusedLabelE probs np = .ok (fusedLabelD probs np) := by
  cases hp : np.parseNum with
  | none => simp only [fusedLabelE, fusedLabelD, hp]
  | some n =>
      have hlt : argmaxIdx (probs.map fun p => (p + n) / 2) < 7 := by
        have hne : (probs.map fun p => (p + n) / 2) ≠ [] := by
          intro hc
          rw [← List.length_eq_zero] at hc
          simp [h] at hc
        have := argmaxIdx_lt_length _ hne
        simpa [h] using this
      simp only [fusedLabelE, fusedLabelD, hp, CLASS_LABELS_getElem_lt _ hlt]

/-- On an in-contract vector the whole pipeline succeeds with the
closed-form payload. -/
theorem runPipeline_of_length7 (env : Env) (md : Metadata) (orig : OrigImage)
    (h : (cnnProbsOf env orig).length = 7) :
    runPipeline env md orig = .ok (payloadOf env md orig) := by
  simp only [runPipeline, payloadOf, allClassProbsStr]
  rw [allEntries_of_length7 _ h, fusedLabelE_of_length7 _ _ h]
  obtain ⟨a, b, c, d, e, f, g, hsh⟩ := exists_seven_of_length _ h
  rw [hsh]

/-! ## Inversion of a successful response -/

/-- A 200 response pins down the whole control path: the `image` field was
present, the decode succeeded, and the pipeline returned the payload. -/
theorem predict_success_inv (env : Env) (req : Request) (payload : Payload)
    (hs : predict env req = .success payload) :
    ∃ fname bytes orig, req.image = some (fname, bytes) ∧
      env.decode bytes = some orig ∧
      runPipeline env req.meta orig = .ok payload := by
  cases hi : req.image with
  | none => simp [predict, hi] at hs
  | some fb =>
      obtain ⟨fname, bytes⟩ := fb
      cases hd : env.decode bytes with
      | none => simp [predict, hi, hd] at hs
      | some orig =>
          refine ⟨fname, bytes, orig, rfl, hd, ?_⟩
          simp only [predict, hi, hd] at hs
          cases hr : runPipeline env req.meta orig with
          | ok p =>
              rw [hr] at hs
              cases hs
              rfl
          | error e =>
              rw [hr] at hs
              exact absurd hs (by simp)

/-- A successful pipeline run pins down every payload field. -/
theorem runPipeline_ok_inv (env : Env) (md : Metadata) (orig : OrigImage)
    (payload : Payload) (h : runPipeline env md orig = .ok payload) :
    ∃ entries final_label,
      allEntries (cnnProbsOf env orig) = .ok entries ∧
      fusedLabelE (cnnProbsOf env orig) (env.nlp md) = .ok final_label ∧
      payload = Payload.mk
        ("data:image/png;base64," ++
          env.encodePlot (maskedImg env orig) (origRGB orig) (maskBin env orig))
        ("Predicted Class: " ++ topClassLabel (cnnProbsOf env orig) ++
          " (Confidence: " ++
          formatFixed 2 ((cnnProbsOf env orig).getD (argmaxIdx (cnnProbsOf env orig)) 0) ++ ")")
        (String.intercalate ", " entries)
        ("NLP Prediction: " ++ (env.nlp md).toStr)
        "U-Net Segmentation Applied"
        ("This disease is most probably classified as: " ++ final_label) := by
  simp only [runPipeline] at h
  split at h
  · exact absurd h (by simp)
  · split at h
    · exact absurd h (by simp)
    · rename_i entries heq
      split at h
      · exact absurd h (by simp)
      · rename_i final_label heq2
        cases h
        exact ⟨entries, final_label, heq, heq2, rfl⟩

/-- In the string-fallback branch fusion returns `str(nlp_pred)` and
cannot fail. -/
theorem fusedLabelE_of_parse_none (probs : List ℚ) (np : NlpPred)
    (hn : np.parseNum = none) : fusedLabelE probs np = .ok np.toStr := by
  simp only [fusedLabelE, hn]

/-- In the numeric branch a successful fusion returns the label at the
argmax of the averaged vector. -/
theorem fusedLabelE_ok_of_parse_some (probs : List ℚ) (np : NlpPred) (n : ℚ)
    (l : String) (hn : np.parseNum = some n)
    (h : fusedLabelE probs np = .ok l) :
    l = CLASS_LABELS.getD (argmaxIdx (probs.map fun p => (p + n) / 2)) "" := by
  simp only [fusedLabelE, hn] at h
  split at h
  · rename_i v heq
    cases h
    rw [List.getD_eq_getElem?_getD, heq]
    rfl
  · exact absurd h (by simp)

/-- Whenever the entry generator succeeds over an index list, the result
has one entry per index: the label at that index, a separator and a
4-decimal formatted probability. -/
theorem entriesUpto_ok_shape (probs : List ℚ) :
    ∀ (is : List Nat) (ss : List String), entriesUpto probs is = .ok ss →
      ss.length = is.length ∧
        ∀ k, k < is.length → ∃ q : ℚ,
          ss.getD k "" =
            CLASS_LABELS.getD (is.getD k 0) "" ++ ": " ++ formatFixed 4 q := by
  intro is
  induction is with
  | nil =>
      intro ss h
      cases h
      exact ⟨rfl, fun k hk => absurd hk (by simp)⟩
  | cons i is ih =>
      intro ss h
      simp only [entriesUpto] at h
      split at h
      · exact absurd h (by simp)
      · exact absurd h (by simp)
      · rename_i s ss2 heq1 heq2
        cases h
        obtain ⟨hlen, hall⟩ := ih ss2 heq2
        refine ⟨by simp [hlen], ?_⟩
        intro k hk
        cases k with
        | zero =>
            simp only [entryAt] at heq1
            split at heq1
            · rename_i q hq
              cases heq1
              exact ⟨q, rfl⟩
            · exact absurd heq1 (by simp)
        | succ k =>
            simp only [List.length_cons] at hk
            obtain ⟨q, hq⟩ := hall k (by omega)
            exact ⟨q, by simpa using hq⟩

/-! ## Concrete fixtures used by the witnesses and the counterexample -/

/-- The end-to-end scenario metadata of the spec. -/
def md0 : Metadata := ⟨"histo", "45", "male", "back"⟩

/-- The synthetic probability vector of the spec's end-to-end scenario. -/
def probs0 : List ℚ := [1/10, 6/10, 1/20, 1/20, 1/20, 1/10, 1/20]

/-- A uniform decoded image. -/
def orig0 : OrigImage := fun _ _ => 128

/-- A metadata prediction that fails numeric coercion (`str` gives a
label). -/
def nlpStr : NlpPred := ⟨none, "mel"⟩

/-- A metadata prediction that coerces to the number 0.2. -/
def nlpNum : NlpPred := ⟨some (1/5), "0.2"⟩

/-- Deterministic stub collaborators: decode always succeeds, mask all
ones, fixed probability vector, non-numeric metadata prediction. -/
def env0 : Env :=
  { decode := fun _ => some orig0
    segmentation := fun _ _ => 1
    classification := fun _ => probs0
    nlp := fun _ => nlpStr
    encodePlot := fun _ _ _ => "" }

/-- Like `env0` but with a numeric metadata prediction. -/
def env1 : Env := { env0 with nlp := fun _ => nlpNum }

/-- Like `env0` but the decode fails (`cv2.imread` returns `None`). -/
def envBad : Env := { env0 with decode := fun _ => none }

/-- A well-formed request carrying an image file and the metadata. -/
def req0 : Request := ⟨some ("lesion.png", [137, 80, 78, 71]), md0⟩

/-- A request whose files lack the `image` field. -/
def reqNoImage : Request := ⟨none, md0⟩

/-- Same image bytes as `req0` under a different filename. -/
def req1 : Request := ⟨some ("copy.png", [137, 80, 78, 71]), md0⟩

deriving instance DecidableEq for Except

/-! ## The claimed properties -/

/-- C1: for every request in which the metadata model's output parses as a
number `N`, the fused label returned by the predict handler equals the
label at the argmax of `(cnn_probs + N) / 2`, where `cnn_probs` is the
classification probability vector. -/
theorem C1_fusion_numeric_law (env : Env) (req : Request) (payload : Payload)
    (fname : String) (bytes : List Nat) (orig : OrigImage) (n : ℚ)
    (h1 : req.image = some (fname, bytes))
    (h2 : env.decode bytes = some orig)
    (hn : (env.nlp req.meta).parseNum = some n)
    (hs : predict env req = .success payload) :
    payload.final_output = "This disease is most probably classified as: " ++
      CLASS_LABELS.getD (argmaxIdx ((cnnProbsOf env orig).map fun p => (p + n) / 2)) "" := by
  obtain ⟨f2, b2, o2, hi2, hd2, hr⟩ := predict_success_inv env req payload hs
  rw [h1] at hi2
  injection hi2 with hp
  injection hp with hf hb
  subst hf
  subst hb
  rw [h2] at hd2
  injection hd2 with ho
  subst ho
  obtain ⟨entries, fl, hent, hfuse, hpay⟩ := runPipeline_ok_inv _ _ _ _ hr
  have hfl := fusedLabelE_ok_of_parse_some _ _ _ _ hn hfuse
  rw [hpay, ← hfl]

/-- C2 amended: when the metadata model's output cannot be parsed as a
number, no averaging occurs and the fused label is the output's string
form verbatim, but the `final_output` field is the fixed prefix
`"This disease is most probably classified as: "` followed by that
string form, not the bare string form. -/
theorem C2_final_output_prefixed (env : Env) (req : Request) (payload : Payload)
    (hn : (env.nlp req.meta).parseNum = none)
    (hs : predict env req = .success payload) :
    payload.final_output =
      "This disease is most probably classified as: " ++ (env.nlp req.meta).toStr := by
  obtain ⟨f, b, o, hi, hd, hr⟩ := predict_success_inv env req payload hs
  obtain ⟨entries, fl, hent, hfuse, hpay⟩ := runPipeline_ok_inv _ _ _ _ hr
  rw [fusedLabelE_of_parse_none _ _ hn] at hfuse
  injection hfuse with hfl
  rw [hpay, hfl]

/-- C3: for every metadata-model prediction value (the environment is
arbitrary, hence so is `env.nlp`), the fusion computation never raises
past the handler boundary: with a decodable image and the contractual
length-7 probability vector the handler always returns a 200 success,
numeric-coercion failure included. -/
theorem C3_fusion_never_raises (env : Env) (req : Request)
    (fname : String) (bytes : List Nat) (orig : OrigImage)
    (h1 : req.image = some (fname, bytes))
    (h2 : env.decode bytes = some orig)
    (h7 : (cnnProbsOf env orig).length = 7) :
    predict env req = .success (payloadOf env req.meta orig) := by
  simp only [predict, h1, h2, runPipeline_of_length7 env req.meta orig h7]

/-- C4: a POST request whose files do not contain an `image` field gets a
400 response with an error body, and no model is invoked: the response
is identical under any other set of collaborators. -/
theorem C4_missing_image_400 (env env2 : Env) (req : Request)
    (h : req.image = none) :
    predict env req = .error 400 "No image provided" ∧
      predict env req = predict env2 req := by
  constructor <;> simp [predict, h]

/-- C5: when the uploaded file decodes to no image data, the raised
`ValueError` propagates to the single outer boundary and becomes a 500
response whose error body is the exception's string form. -/
theorem C5_unreadable_image_500 (env : Env) (req : Request)
    (fname : String) (bytes : List Nat)
    (h1 : req.image = some (fname, bytes))
    (h2 : env.decode bytes = none) :
    predict env req =
      .error 500 ("Could not read image from path: uploads/" ++ fname) := by
  simp [predict, h1, h2]

/-- C6: the image fed to the classifier is the masked image, which at
every pixel and channel equals the normalized image where the raw mask
value exceeds 0.5 and zero where it does not. -/
theorem C6_masking_pointwise (env : Env) (orig : OrigImage) :
    cnnProbsOf env orig = env.classification (maskedImg env orig) ∧
    ∀ (p : Pos) (c : Fin 3),
      maskedImg env orig p c =
        if env.segmentation (imgNorm orig) p > 1 / 2 then imgNorm orig p c else 0 := by
  refine ⟨rfl, fun p c => ?_⟩
  by_cases h : env.segmentation (imgNorm orig) p > 1 / 2 <;>
    simp [maskedImg, maskBin, h]

/-- C7: every success response's `all_class_probabilities` field is the
`", "`-join of exactly 7 entries, the `i`-th being the `i`-th label of
the fixed set followed by `": "` and a probability formatted to 4
decimal places. -/
theorem C7_all_class_probabilities_shape (env : Env) (req : Request)
    (payload : Payload) (hs : predict env req = .success payload) :
    ∃ entries : List String,
      payload.all_class_probabilities = String.intercalate ", " entries ∧
      entries.length = 7 ∧
      ∀ i, i < 7 → ∃ q : ℚ,
        entries.getD i "" = CLASS_LABELS.getD i "" ++ ": " ++ formatFixed 4 q := by
  obtain ⟨f, b, o, hi, hd, hr⟩ := predict_success_inv env req payload hs
  obtain ⟨entries, fl, hent, hfuse, hpay⟩ := runPipeline_ok_inv _ _ _ _ hr
  obtain ⟨hlen, hall⟩ := entriesUpto_ok_shape _ _ _ hent
  refine ⟨entries, by rw [hpay], by simpa using hlen, ?_⟩
  intro i hi7
  obtain ⟨q, hq⟩ := hall i (by simpa using hi7)
  refine ⟨q, ?_⟩
  rw [hq]
  have hri : ∀ j, j < 7 → (List.range CLASS_LABELS.length).getD j 0 = j := by decide
  rw [hri i hi7]

/-- C8: two requests with identical image bytes and identical metadata
fields, evaluated against the same deterministic collaborators, receive
identical `cnn_output` and `final_output` values. -/
theorem C8_deterministic_outputs (env : Env) (r1 r2 : Request)
    (p1 p2 : Payload) (fn1 fn2 : String) (bytes : List Nat)
    (h1 : r1.image = some (fn1, bytes)) (h2 : r2.image = some (fn2, bytes))
    (hm : r1.meta = r2.meta)
    (hs1 : predict env r1 = .success p1) (hs2 : predict env r2 = .success p2) :
    p1.cnn_output = p2.cnn_output ∧ p1.final_output = p2.final_output := by
  cases hd : env.decode bytes with
  | none =>
      simp only [predict, h1, hd] at hs1
      exact absurd hs1 (by simp)
  | some orig =>
      simp only [predict, h1, hd] at hs1
      simp only [predict, h2, hd] at hs2
      rw [hm] at hs1
      cases hr : runPipeline env r2.meta orig with
      | error e =>
          rw [hr] at hs1
          exact absurd hs1 (by simp)
      | ok p =>
          rw [hr] at hs1
          rw [hr] at hs2
          injection hs1 with e1
          injection hs2 with e2
          subst e1
          subst e2
          exact ⟨rfl, rfl⟩

/-- C9: on a length-7 probability vector the argmax index is always in
range of the 7-entry label list, so the top label is one of the seven
fixed labels and the defensive `"Unknown"` branch is unreachable. -/
theorem C9_top_label_in_range (probs : List ℚ) (h7 : probs.length = 7) :
    argmaxIdx probs < 7 ∧
    topClassLabel probs = CLASS_LABELS.getD (argmaxIdx probs) "" ∧
    topClassLabel probs ≠ "Unknown" := by
  have hne : probs ≠ [] := by
    intro e
    rw [e] at h7
    exact absurd h7 (by decide)
  have hlt : argmaxIdx probs < 7 := by
    have := argmaxIdx_lt_length probs hne
    rwa [h7] at this
  have heq : topClassLabel probs = CLASS_LABELS.getD (argmaxIdx probs) "" := by
    unfold topClassLabel
    rw [if_pos (show argmaxIdx probs < CLASS_LABELS.length from hlt)]
  refine ⟨hlt, heq, ?_⟩
  rw [heq]
  exact CLASS_LABELS_getD_ne_Unknown _ hlt

/-! ## Concrete witnesses

The kernel evaluates the pipeline at the fixtures; the `Rat` arithmetic
operations are restored to their definitional unfolding for that purpose
inside this section. -/

section ConcreteWitnesses

attribute [local semireducible] Rat.mul Rat.add Rat.inv

/-- C2 counterexample: with the non-numeric metadata prediction whose
string form is `"mel"`, the handler succeeds but `final_output` is the
prefixed sentence, not the bare string form, so the claim as stated is
false on the code. -/
theorem C2_verbatim_counterexample :
    (env0.nlp req0.meta).parseNum = none ∧
    predict env0 req0 = .success (payloadOf env0 md0 orig0) ∧
    (payloadOf env0 md0 orig0).final_output ≠ (env0.nlp req0.meta).toStr := by
  refine ⟨rfl, by decide, by decide⟩

/-- Witness for C1 at the spec's synthetic vector and `N = 0.2`. -/
theorem C1_fusion_numeric_law_witness :
    (payloadOf env1 md0 orig0).final_output =
      "This disease is most probably classified as: " ++
        CLASS_LABELS.getD
          (argmaxIdx ((cnnProbsOf env1 orig0).map fun p => (p + 1/5) / 2)) "" :=
  C1_fusion_numeric_law env1 req0 (payloadOf env1 md0 orig0)
    "lesion.png" [137, 80, 78, 71] orig0 (1/5) rfl rfl (by decide) (by decide)

/-- Witness for the amended C2 at the non-numeric fixture. -/
theorem C2_final_output_prefixed_witness :
    (payloadOf env0 md0 orig0).final_output =
      "This disease is most probably classified as: " ++ (env0.nlp req0.meta).toStr :=
  C2_final_output_prefixed env0 req0 (payloadOf env0 md0 orig0) rfl (by decide)

/-- Witness for C3: the non-numeric fixture still yields a 200. -/
theorem C3_fusion_never_raises_witness :
    predict env0 req0 = .success (payloadOf env0 req0.meta orig0) :=
  C3_fusion_never_raises env0 req0 "lesion.png" [137, 80, 78, 71] orig0
    rfl rfl (by decide)

/-- Witness for C4 at a request with no image field. -/
theorem C4_missing_image_400_witness :
    predict env0 reqNoImage = .error 400 "No image provided" ∧
      predict env0 reqNoImage = predict env1 reqNoImage :=
  C4_missing_image_400 env0 env1 reqNoImage rfl

/-- Witness for C5 at a failing decoder. -/
theorem C5_unreadable_image_500_witness :
    predict envBad req0 =
      .error 500 ("Could not read image from path: uploads/" ++ "lesion.png") :=
  C5_unreadable_image_500 envBad req0 "lesion.png" [137, 80, 78, 71] rfl rfl

/-- Witness for C7 at the non-numeric fixture. -/
theorem C7_all_class_probabilities_shape_witness :
    ∃ entries : List String,
      (payloadOf env0 md0 orig0).all_class_probabilities =
        String.intercalate ", " entries ∧
      entries.length = 7 ∧
      ∀ i, i < 7 → ∃ q : ℚ,
        entries.getD i "" = CLASS_LABELS.getD i "" ++ ": " ++ formatFixed 4 q :=
  C7_all_class_probabilities_shape env0 req0 (payloadOf env0 md0 orig0) (by decide)

/-- Witness for C8: same bytes under two filenames. -/
theorem C8_deterministic_outputs_witness :
    (payloadOf env0 md0 orig0).cnn_output = (payloadOf env0 md0 orig0).cnn_output ∧
    (payloadOf env0 md0 orig0).final_output = (payloadOf env0 md0 orig0).final_output :=
  C8_deterministic_outputs env0 req0 req1 (payloadOf env0 md0 orig0)
    (payloadOf env0 md0 orig0) "lesion.png" "copy.png" [137, 80, 78, 71]
    rfl rfl rfl (by decide) (by decide)

/-- Witness for C9 at the spec's synthetic vector. -/
theorem C9_top_label_in_range_witness :
    argmaxIdx probs0 < 7 ∧
    topClassLabel probs0 = CLASS_LABELS.getD (argmaxIdx probs0) "" ∧
    topClassLabel probs0 ≠ "Unknown" :=
  C9_top_label_in_range probs0 (by decide)

end ConcreteWitnesses
